import Mathlib

set_option autoImplicit false

namespace TranscriptionApp

/- Shallow embedding of the transcription-app orchestration layer:
   the upload route (src/app/api/transcribe/local/route.ts), the URL route
   (src/app/api/transcribe-url/route.ts) and the client stream consumer
   (src/app/page.tsx). JavaScript strings are modelled as Lean strings,
   JavaScript numbers as rationals, and the platform JSON.parse as an
   abstract parse function passed as a parameter. -/

/-- Left brace character, written via its code point. -/
def lbrace : Char := Char.ofNat 123

/-- Right brace character, written via its code point. -/
def rbrace : Char := Char.ofNat 125

/-- Model of the JavaScript String.split with a one-character separator:
splits on every occurrence and keeps empty pieces, including a trailing one. -/
def splitOnChar (c : Char) : List Char → List (List Char)
  | [] => [[]]
  | x :: xs =>
    if x = c then [] :: splitOnChar c xs
    else
      match splitOnChar c xs with
      | [] => [[x]]
      | h :: t => (x :: h) :: t

/-- The lines of a chunk, as produced by the routes via split on the newline
character. -/
def jsLines (s : String) : List String :=
  (splitOnChar '\n' s.data).map List.asString

/-- Index of the first occurrence of pat in cs, as JavaScript String.indexOf
finds it; none when pat does not occur. -/
def findSubstrIdx (pat : List Char) : List Char → Option Nat
  | [] => if pat.isPrefixOf ([] : List Char) then some 0 else none
  | c :: t =>
    if pat.isPrefixOf (c :: t) then some 0
    else (findSubstrIdx pat t).map Nat.succ

/-- Model of the JavaScript String.includes. -/
def strContains (s pat : String) : Bool :=
  (findSubstrIdx pat.data s.data).isSome

/-- Model of the JavaScript toLowerCase for the ASCII hostnames in play. -/
def jsToLower (s : String) : String :=
  (s.data.map Char.toLower).asString

/-- Model of the JavaScript String.trim: strip leading and trailing
whitespace characters. -/
def jsTrim (s : String) : String :=
  (((s.data.dropWhile Char.isWhitespace).reverse.dropWhile
      Char.isWhitespace).reverse).asString

/-- One per-segment chunk of a transcription result. -/
structure SegmentChunk where
  text : String
  startTime : ℚ
  endTime : ℚ
deriving DecidableEq

/-- The TranscriptionResult interface of route.ts. -/
structure TranscriptionResult where
  success : Bool
  text : Option String
  processing_time : ℚ
  model_used : Option String
  audio_duration : Option ℚ
  chunks : Option (List SegmentChunk)
  error : Option String
deriving DecidableEq

/-- The ProgressUpdate interface of route.ts: one decoded progress event. -/
structure ProgressUpdate where
  percentage : ℚ
  stage : String
  elapsed_time : ℚ
  estimated_total_time : Option ℚ
  timestamp : String
deriving DecidableEq

/-- One server-sent frame. The complete frame carries the result the server
put into it: the upload route sends the parsed result, the URL route sends
none at all, which the Option records. -/
inductive Frame
  | progress (p : ProgressUpdate)
  | complete (result : Option TranscriptionResult)
  | error (msg : String)
deriving DecidableEq

/-- Whether a frame is terminal (complete or error). -/
def isTerminalFrame : Frame → Bool
  | .progress _ => false
  | .complete _ => true
  | .error _ => true

/-- Observable server-side effects, in execution order. -/
inductive ServerAction
  | enqueue (f : Frame)
  | closeStream
  | deleteFile (path : String)
  | writeFile (path : String)
deriving DecidableEq

/-- The frames enqueued in a trace of server actions, in order. -/
def enqueuedFrames (acts : List ServerAction) : List Frame :=
  acts.filterMap (fun a =>
    match a with
    | .enqueue f => some f
    | _ => none)

/-- The progress protocol line marker. -/
def progressMarker : String := "PROGRESS:"

/-- The stderr line decoder of runPythonScriptWithProgress in route.ts
(upload route): a line yields an event only when it starts with the marker
at offset 0; the slice after the marker is handed to JSON.parse, whose
failure is swallowed by the catch. The parse parameter models JSON.parse
typed at the ProgressUpdate interface. -/
def localDecodeLine (parse : String → Option ProgressUpdate) (line : String) :
    List ProgressUpdate :=
  if progressMarker.data.isPrefixOf line.data then
    match parse ((line.data.drop 9).asString) with
    | some p => [p]
    | none => []
  else []

/-- Per-chunk decoding of the upload route: split the chunk on newlines and
decode each line. -/
def localDecodeChunk (parse : String → Option ProgressUpdate) (chunk : String) :
    List ProgressUpdate :=
  (jsLines chunk).flatMap (localDecodeLine parse)

/-- The stderr line decoder of runPythonScriptWithProgress in the URL route:
the marker may occur anywhere in the line (String.includes), the slice starts
just after the first occurrence (String.indexOf plus nine) and runs to the
end of the line; a parse failure is swallowed. -/
def urlDecodeLine (parse : String → Option ProgressUpdate) (line : String) :
    List ProgressUpdate :=
  match findSubstrIdx progressMarker.data line.data with
  | some i =>
    match parse ((line.data.drop (i + 9)).asString) with
    | some p => [p]
    | none => []
  | none => []

/-- Per-chunk decoding of the URL route. -/
def urlDecodeChunk (parse : String → Option ProgressUpdate) (chunk : String) :
    List ProgressUpdate :=
  (jsLines chunk).flatMap (urlDecodeLine parse)

/-- Model of the regex match of braces used on the accumulated stdout: the
greedy pattern matches from the first left brace to the last right brace of
the whole string, provided the first left brace precedes the last right
brace; otherwise there is no match. -/
def jsMatchBraces (s : String) : Option String :=
  let cs := s.data
  match cs.findIdx? (fun c => c = lbrace), cs.reverse.findIdx? (fun c => c = rbrace) with
  | some i, some k =>
    let j := cs.length - 1 - k
    if i < j then some (((cs.drop i).take (j - i + 1)).asString) else none
  | _, _ => none

/-- Terminal event delivered by the upload-route streaming supervisor to its
caller: the onComplete callback with a parsed result, or the onError callback
with a message. -/
inductive CallbackEvent
  | complete (r : TranscriptionResult)
  | errorMsg (msg : String)
deriving DecidableEq

/-- Outcome of the promise-based runners (runPythonScript in route.ts and
runPythonScriptWithProgress in the URL route): resolve with a parsed result,
resolve with a bare text object built from the trimmed stdout (the degraded
path when no brace match exists), or reject with an error message. -/
inductive RunOutcome
  | resolvedResult (r : TranscriptionResult)
  | resolvedText (text : String)
  | rejected (msg : String)
deriving DecidableEq

/-- The close handler of runPythonScriptWithProgress in route.ts (upload
route), as a function of the exit code and the accumulated stdout and stderr.
The parseResult parameter models JSON.parse typed at TranscriptionResult;
its error carries the JavaScript error message. On a nonzero code it calls
onError with the exit code and the accumulated stderr; on code zero with a
brace match it parses, calling onError with a fixed message when the parse
throws; with no brace match it calls onError with the fixed
invalid-response-format message. -/
def localCloseWithProgress (parseResult : String → Except String TranscriptionResult)
    (code : Int) (stdoutData stderrData : String) : CallbackEvent :=
  if code ≠ 0 then
    .errorMsg ("Python script exited with code " ++ toString code ++ ": " ++ stderrData)
  else
    match jsMatchBraces stdoutData with
    | some js =>
      match parseResult js with
      | .ok r => .complete r
      | .error _ => .errorMsg ("Failed to parse transcription result")
    | none => .errorMsg ("Invalid response format from transcription service")

/-- The close handler of runPythonScript in route.ts (the non-streaming
runner): on a nonzero code it rejects with the exit code and the accumulated
stderr; on code zero it resolves the parsed brace match, rejects with the
thrown parse error, or, with no brace match, resolves a bare object whose
text is the trimmed stdout. -/
def localCloseRegular (parseResult : String → Except String TranscriptionResult)
    (code : Int) (stdoutData stderrData : String) : RunOutcome :=
  if code ≠ 0 then
    .rejected ("Python script exited with code " ++ toString code ++ ": " ++ stderrData)
  else
    match jsMatchBraces stdoutData with
    | some js =>
      match parseResult js with
      | .ok r => .resolvedResult r
      | .error e => .rejected e
    | none => .resolvedText (jsTrim stdoutData)

/-- The close handler of runPythonScriptWithProgress in the URL route: same
structure as localCloseRegular with its own message templates. -/
def urlClose (parseResult : String → Except String TranscriptionResult)
    (code : Int) (stdoutData stderrData : String) : RunOutcome :=
  if code ≠ 0 then
    .rejected ("Python script failed with code " ++ toString code ++ ": " ++ stderrData)
  else
    match jsMatchBraces stdoutData with
    | some js =>
      match parseResult js with
      | .ok r => .resolvedResult r
      | .error e => .rejected ("Failed to parse transcription result: " ++ e)
    | none => .resolvedText (jsTrim stdoutData)

/-- The terminal actions of handleProgressStreamRequest in route.ts (upload
route). The onComplete callback enqueues the complete frame wrapping the
result, closes the stream, then deletes the temp file; onError enqueues the
error frame, closes, then deletes. Neither callback guards the enqueue: when
the consumer has disconnected the enqueue throws and every later statement
of the callback, the cleanup included, is skipped, so the trace is empty. -/
def localTerminalActions (consumerConnected : Bool) (t : CallbackEvent)
    (filePath : String) : List ServerAction :=
  match t with
  | .complete r =>
    if consumerConnected then
      [.enqueue (Frame.complete (some r)), .closeStream, .deleteFile filePath]
    else []
  | .errorMsg m =>
    if consumerConnected then
      [.enqueue (Frame.error m), .closeStream, .deleteFile filePath]
    else []

/-- The stream body of handleStreamingTranscription in the URL route. The
try block awaits the runner and enqueues a complete frame that carries no
result field at all (the resolved result is discarded); the catch enqueues
an error frame with the rejection message; the finally block unlinks the
temp file and then closes the controller. When the consumer has
disconnected, the enqueue of the try throws, the enqueue of the catch throws
again, and only the unlink of the finally block takes effect. -/
def urlStreamActions (consumerConnected : Bool) (outcome : RunOutcome)
    (filePath : String) : List ServerAction :=
  (match outcome with
   | .rejected m => if consumerConnected then [.enqueue (Frame.error m)] else []
   | _ => if consumerConnected then [.enqueue (Frame.complete none)] else [])
  ++ [.deleteFile filePath]
  ++ (if consumerConnected then [.closeStream] else [])

/-- One supervised worker run: exit code and the stdout and stderr chunks in
arrival order. Both routes accumulate the chunks of each stream verbatim. -/
structure WorkerRun where
  exitCode : Int
  stdoutChunks : List String
  stderrChunks : List String

/-- Full action trace of the upload-route streaming path for one worker run:
a progress frame is enqueued per decoded stderr line as the chunks arrive,
then the close handler fires and the terminal actions run. -/
def localStreamedActions (parseProgress : String → Option ProgressUpdate)
    (parseResult : String → Except String TranscriptionResult)
    (consumerConnected : Bool) (run : WorkerRun) (filePath : String) :
    List ServerAction :=
  ((run.stderrChunks.flatMap (localDecodeChunk parseProgress)).map
    (fun p => ServerAction.enqueue (Frame.progress p)))
  ++ localTerminalActions consumerConnected
      (localCloseWithProgress parseResult run.exitCode
        (String.join run.stdoutChunks) (String.join run.stderrChunks))
      filePath

/-- Action trace of handleRegularRequest in route.ts: when the worker script
file is missing the handler returns the 500 configuration-error response
without touching the temp file; otherwise it runs the worker and deletes the
temp file both on resolution and on rejection. -/
def localRegularActions (scriptExists : Bool) (outcome : RunOutcome)
    (filePath : String) : List ServerAction :=
  if scriptExists then
    match outcome with
    | .resolvedResult _ => [.deleteFile filePath]
    | .resolvedText _ => [.deleteFile filePath]
    | .rejected _ => [.deleteFile filePath]
  else []

/-- A multipart form value: a Blob carrying bytes, or a plain string (the
only other value kind FormData.get can return). -/
inductive FormValue
  | blobValue (bytes : List Nat)
  | stringValue (s : String)
deriving DecidableEq

/-- The request seen by the upload POST handler: the audio field of the
multipart body, when present, and whether the accept header includes the
event-stream content type. -/
structure UploadRequest where
  audio : Option FormValue
  acceptsEventStream : Bool
deriving DecidableEq

/-- How the upload POST handler proceeded. -/
inductive UploadHandling
  | streamed
  | regular
  | rejectedRequest
deriving DecidableEq

/-- Response summary of a POST handler: HTTP status, the error field of the
JSON body when one is returned, the server actions run, and the chosen
handling. -/
structure PostResponse where
  status : Nat
  errorMsg : Option String
  actions : List ServerAction
  handling : UploadHandling
deriving DecidableEq

/-- The POST handler of route.ts up to the choice of response mode: it
computes the temp path, reads the audio field, returns 400 with the
no-audio-file error when the field is absent or not a Blob, and only after
that validation writes the bytes to the temp path and branches on the
accept header. -/
def uploadPost (req : UploadRequest) (filePath : String) : PostResponse :=
  match req.audio with
  | some (.blobValue _) =>
    if req.acceptsEventStream then
      { status := 200, errorMsg := none,
        actions := [.writeFile filePath], handling := .streamed }
    else
      { status := 200, errorMsg := none,
        actions := [.writeFile filePath], handling := .regular }
  | some (.stringValue _) =>
    { status := 400, errorMsg := some ("No audio file provided"),
      actions := [], handling := .rejectedRequest }
  | none =>
    { status := 400, errorMsg := some ("No audio file provided"),
      actions := [], handling := .rejectedRequest }

/-- The parts of a parsed URL that isYouTubeURL inspects: hostname (already
lowercased by the URL parser), pathname and the raw query string. -/
structure JSURL where
  hostname : String
  pathname : String
  query : String
deriving DecidableEq

/-- Model of the WHATWG URL constructor for the plain http and https URLs
the route deals with: scheme before the colon-slash-slash, authority up to
the first slash, question mark or hash, hostname after the last at sign and
before a port colon, lowercased; pathname from the first slash up to the
query or fragment, defaulting to a single slash; query between the question
mark and the fragment. Returns none when no scheme separator exists, the
scheme is not alphabetic or the host is empty, the cases where the
constructor throws for such URLs. -/
def parseJSURL (s : String) : Option JSURL :=
  let cs := s.data
  match findSubstrIdx ("://".data) cs with
  | none => none
  | some i =>
    let scheme := cs.take i
    if scheme.isEmpty || !(scheme.all Char.isAlpha) then none
    else
      let rest := cs.drop (i + 3)
      let authority := rest.takeWhile
        (fun c => !(c == '/') && !(c == '?') && !(c == '#'))
      let afterAuth := rest.drop authority.length
      let hostPort := (splitOnChar '@' authority).getLastD []
      let host := hostPort.takeWhile (fun c => !(c == ':'))
      if host.isEmpty then none
      else
        let pathname :=
          if afterAuth.head? = some '/' then
            (afterAuth.takeWhile (fun c => !(c == '?') && !(c == '#'))).asString
          else "/"
        let afterPath := afterAuth.dropWhile (fun c => !(c == '?') && !(c == '#'))
        let query :=
          if afterPath.head? = some '?' then
            ((afterPath.drop 1).takeWhile (fun c => !(c == '#'))).asString
          else ""
        some { hostname := jsToLower host.asString, pathname := pathname,
               query := query }

/-- Whether URLSearchParams.has finds a parameter of the given name: split
the query on ampersands, take the part of each nonempty piece before the
first equals sign as the name. -/
def queryHas (query : String) (name : String) : Bool :=
  (splitOnChar '&' query.data).any (fun kv =>
    !kv.isEmpty && (kv.takeWhile (fun c => !(c == '='))).asString == name)

/-- The youtubeHosts list of the URL route. -/
def youtubeHosts : List String :=
  ["youtube.com", "www.youtube.com", "m.youtube.com", "youtu.be"]

/-- The isYouTubeURL classifier of the URL route: parse the URL (false when
parsing throws), lowercase the hostname, check exact membership in the known
hosts; for hostnames containing youtube.com additionally require a video
path (watch, shorts or embed segment, or a v query parameter); for youtu.be
require a pathname longer than a single slash. -/
def isYouTubeURL (url : String) : Bool :=
  match parseJSURL url with
  | none => false
  | some u =>
    let hostname := jsToLower u.hostname
    let isYouTubeDomain := youtubeHosts.contains hostname
    if strContains hostname ("youtube.com") then
      let hasVideoPath :=
        strContains u.pathname ("/watch") ||
        strContains u.pathname ("/shorts/") ||
        strContains u.pathname ("/embed/") ||
        queryHas u.query ("v")
      isYouTubeDomain && hasVideoPath
    else if hostname == "youtu.be" then decide (u.pathname.length > 1)
    else false

/-- The acquisition strategy the URL route dispatches to. -/
inductive AcquireStrategy
  | ytDownload
  | directFetch
deriving DecidableEq

/-- How a run of the URL-route POST handler ends, up to the worker spawn. -/
inductive URLPostResult
  | missingUrl
  | acquisitionFailed (msg : String)
  | scriptMissing
  | workerSpawned (strategy : AcquireStrategy)
deriving DecidableEq

/-- The POST handler of the URL route up to the worker spawn: reject a
missing or empty audioUrl with 400; classify the URL with isYouTubeURL and
run the matching downloader, whose network-dependent outcome is the
corresponding parameter (ok when the artifact lands at the temp path, error
with the thrown message otherwise); a downloader error propagates to the
outer catch and a 500 response; after a successful download, a missing
worker script yields the 500 configuration-error response, else the worker
is spawned. There is no branch that rejects a URL before attempting a
download. -/
def urlPost (fetchOutcome : Except String Unit) (ytOutcome : Except String Unit)
    (scriptExists : Bool) (audioUrl : Option String) : URLPostResult :=
  match audioUrl with
  | none => .missingUrl
  | some url =>
    if url = "" then .missingUrl
    else
      let acquired : Except String AcquireStrategy :=
        if isYouTubeURL url then ytOutcome.map (fun _ => .ytDownload)
        else fetchOutcome.map (fun _ => .directFetch)
      match acquired with
      | .error e => .acquisitionFailed e
      | .ok strat => if scriptExists then .workerSpawned strat else .scriptMissing

/-- The client chunk processor of page.tsx (both processStreamingResponse
and the inline loop of handleProgressTranscription): decode the chunk, split
it on newlines, and for each line starting with the data prefix parse the
slice after the prefix, swallowing parse failures. No text is carried over
between chunks. The parseEvent parameter models JSON.parse followed by the
dispatch on the type field. -/
def clientProcessChunk (parseEvent : String → Option Frame) (chunk : String) :
    List Frame :=
  (jsLines chunk).flatMap (fun line =>
    if ("data: ".data).isPrefixOf line.data then
      match parseEvent ((line.data.drop 6).asString) with
      | some e => [e]
      | none => []
    else [])

/-- The client read loop: each transport chunk is processed independently,
in order. -/
def clientProcessStream (parseEvent : String → Option Frame)
    (chunks : List String) : List Frame :=
  chunks.flatMap (clientProcessChunk parseEvent)

/-- The ProgressState of page.tsx. -/
structure ProgressState where
  percentage : ℚ
  stage : String
  elapsed_time : ℚ
  estimated_total_time : Option ℚ
  isActive : Bool
deriving DecidableEq

/-- The client state transition of page.tsx on one decoded frame: a progress
frame copies its fields into the state verbatim; a complete frame sets the
percentage to one hundred, the stage to complete and deactivates; an error
frame deactivates. -/
def clientStep (s : ProgressState) (e : Frame) : ProgressState :=
  match e with
  | .progress p =>
    { s with percentage := p.percentage, stage := p.stage,
             elapsed_time := p.elapsed_time,
             estimated_total_time := p.estimated_total_time }
  | .complete _ =>
    { s with percentage := 100, stage := "complete", isActive := false }
  | .error _ =>
    { s with isActive := false }

/-- The width of the progress bar in page.tsx: the percentage clamped to the
interval from zero to one hundred, the only place any clamping happens. -/
def progressBarWidth (s : ProgressState) : ℚ :=
  min 100 (max 0 s.percentage)

/- Concrete fixtures used by the witnesses and counterexamples below. The
parse fixtures record, for the one concrete string each is applied to, what
JSON.parse does on that string. -/

/-- A sample parsed transcription result. -/
def exResult : TranscriptionResult :=
  { success := true, text := some ("hi"), processing_time := 1,
    model_used := none, audio_duration := none, chunks := none, error := none }

/-- A sample progress event with the given percentage. -/
def exProgress (q : ℚ) : ProgressUpdate :=
  { percentage := q, stage := "loading_model", elapsed_time := 2,
    estimated_total_time := none, timestamp := "t" }

/-- A well-formed progress JSON body (braces written as escapes). JSON.parse
accepts it and produces the object exProgress 10 denotes. -/
def progressBody : String :=
  "\x7b\x22percentage\x22:10,\x22stage\x22:\x22loading_model\x22,\x22elapsed_time\x22:2,\x22timestamp\x22:\x22t\x22\x7d"

/-- Behaviour of JSON.parse on progressBody: succeeds exactly there. -/
def progressParse : String → Option ProgressUpdate :=
  fun s => if s = progressBody then some (exProgress 10) else none

/-- A diagnostic line whose marker is preceded by a log prefix of seven
characters. -/
def lineC6 : String := "DEBUG: PROGRESS:" ++ progressBody

/-- Behaviour of JSON.parse on a body it rejects everywhere. -/
def noneProgressParse : String → Option ProgressUpdate := fun _ => none

/-- A progress line whose JSON body is truncated; JSON.parse rejects the
slice after the marker. -/
def truncatedLine : String := "PROGRESS:\x7b\x22percentage\x22:4"

/-- A progress JSON body carrying a percentage of 150; JSON.parse accepts it
and the TypeScript cast performs no range check. -/
def body150 : String :=
  "\x7b\x22percentage\x22:150,\x22stage\x22:\x22processing_complete\x22,\x22elapsed_time\x22:2,\x22timestamp\x22:\x22t\x22\x7d"

/-- Behaviour of JSON.parse on body150. -/
def parse150 : String → Option ProgressUpdate :=
  fun s => if s = body150 then some (exProgress 150) else none

/-- A worker run that exits 0 after emitting one out-of-range progress line
on stderr and a JSON result on stdout. -/
def run150 : WorkerRun :=
  { exitCode := 0,
    stdoutChunks := ["\x7b\x22success\x22:true\x7d"],
    stderrChunks := ["PROGRESS:" ++ body150 ++ "\n"] }

/-- Behaviour of a result parse that always succeeds with exResult. -/
def resultParseOk : String → Except String TranscriptionResult :=
  fun _ => Except.ok exResult

/-- Behaviour of a result parse that always throws. -/
def resultParseErr : String → Except String TranscriptionResult :=
  fun _ => Except.error ("unused")

/-- The serialized complete frame body the server sends. -/
def frameBody : String := "\x7b\x22type\x22:\x22complete\x22\x7d"

/-- First fragment of frameBody as cut by a transport chunk boundary;
not valid JSON on its own. -/
def frameFrag1 : String := "\x7b\x22type\x22:"

/-- Remaining fragment of frameBody. -/
def frameFrag2 : String := "\x22complete\x22\x7d"

/-- Behaviour of JSON.parse plus the type dispatch of the client: succeeds
exactly on the whole frame body, rejects the fragment. -/
def eventParse : String → Option Frame :=
  fun s => if s = frameBody then some (Frame.complete none) else none

/-- A worker run failing with exit code 1 after one progress frame was
already delivered. -/
def runExit1 : WorkerRun :=
  { exitCode := 1,
    stdoutChunks := [],
    stderrChunks := ["PROGRESS:" ++ progressBody ++ "\n", "boom\n"] }

/-- C1 counterexample: with the consumer disconnected, the onComplete
callback of the upload-route stream handler performs no cleanup at all (the
enqueue throws first and nothing later in the callback runs), so the temp
artifact survives; likewise the regular handler returns its 500
script-missing response without deleting the artifact it has already
written. -/
theorem C1_cleanup_skipped_counterexample :
    localTerminalActions false (CallbackEvent.complete exResult) "f.mp3" = [] ∧
    ServerAction.deleteFile ("f.mp3") ∉
      localTerminalActions false (CallbackEvent.complete exResult) "f.mp3" ∧
    localRegularActions false (RunOutcome.resolvedText ("x")) ("f.mp3") = [] := by
  decide

/-- C1 (amended): the URL-route stream handler deletes the temp artifact in
its finally block on every outcome, connected or not; the upload-route
stream handler deletes it on completion and on error only while the consumer
is still connected, and the script-missing 500 path of the regular handler
never deletes it. -/
theorem C1_cleanup_amended (connected : Bool) (outcome : RunOutcome)
    (t : CallbackEvent) (path : String) :
    ServerAction.deleteFile path ∈ urlStreamActions connected outcome path ∧
    ServerAction.deleteFile path ∈ localTerminalActions true t path := by
  constructor
  · cases outcome <;> cases connected <;> simp [urlStreamActions]
  · cases t <;> simp [localTerminalActions]

/-- C2: on a successful streamed job through the URL route, the terminal
frame is a complete frame that carries no result at all (the resolved
transcription result is discarded), even though the stream is then closed;
the upload route does wrap the result. The client reads the result field of
the complete frame, so the URL-route frame loses the transcript. -/
theorem C2_url_complete_frame_drops_result :
    urlStreamActions true (RunOutcome.resolvedResult exResult) "f.mp3" =
      [ServerAction.enqueue (Frame.complete none),
       ServerAction.deleteFile ("f.mp3"), ServerAction.closeStream] ∧
    Frame.complete (some exResult) ∉
      enqueuedFrames (urlStreamActions true (RunOutcome.resolvedResult exResult) "f.mp3") ∧
    enqueuedFrames (localTerminalActions true (CallbackEvent.complete exResult) "f.mp3") =
      [Frame.complete (some exResult)] := by
  decide

/-- C3 counterexample: a worker run that exits 0 with a stdout containing no
brace-delimited object makes the upload-route streaming supervisor call
onError with the invalid-response-format message instead of reporting a
degraded success. -/
theorem C3_streaming_reports_error_counterexample :
    jsMatchBraces ("hello world") = none ∧
    localCloseWithProgress resultParseErr 0 ("hello world") ("") =
      CallbackEvent.errorMsg ("Invalid response format from transcription service") := by
  decide

/-- C3 (amended): on exit 0 with no brace-delimited object in stdout, the
non-streaming runner of the upload route and the runner of the URL route
resolve a degraded success whose text is the trimmed stdout, while the
streaming supervisor of the upload route instead reports the fixed
invalid-response-format error. -/
theorem C3_degraded_success_amended
    (parseResult : String → Except String TranscriptionResult)
    (stdout stderr : String) (h : jsMatchBraces stdout = none) :
    localCloseRegular parseResult 0 stdout stderr =
      RunOutcome.resolvedText (jsTrim stdout) ∧
    urlClose parseResult 0 stdout stderr =
      RunOutcome.resolvedText (jsTrim stdout) ∧
    localCloseWithProgress parseResult 0 stdout stderr =
      CallbackEvent.errorMsg ("Invalid response format from transcription service") := by
  refine ⟨?_, ?_, ?_⟩ <;>
    simp [localCloseRegular, urlClose, localCloseWithProgress, h]

/-- C3 amended witness at a concrete run. -/
theorem C3_degraded_success_amended_witness :
    localCloseRegular resultParseErr 0 ("hello") ("e") =
      RunOutcome.resolvedText (jsTrim ("hello")) ∧
    urlClose resultParseErr 0 ("hello") ("e") =
      RunOutcome.resolvedText (jsTrim ("hello")) ∧
    localCloseWithProgress resultParseErr 0 ("hello") ("e") =
      CallbackEvent.errorMsg ("Invalid response format from transcription service") :=
  C3_degraded_success_amended resultParseErr ("hello") ("e") (by decide)

/-- C5 counterexample: the bare channel-root URL of the long-form domain is
not classified as a YouTube URL, so the POST handler of the URL route treats
it as a direct audio URL; when that plain fetch succeeds (the reachable
homepage does respond), a worker is spawned on the downloaded bytes, so
acquisition did not fail before the spawn and no error frame is produced. -/
theorem C5_bare_channel_url_counterexample :
    isYouTubeURL ("https://www.youtube.com/") = false ∧
    urlPost (Except.ok ()) (Except.ok ()) true (some ("https://www.youtube.com/")) =
      URLPostResult.workerSpawned AcquireStrategy.directFetch := by
  decide

/-- C5 (amended): a URL the classifier rejects, the bare channel root
included, is routed to the direct-URL downloader rather than rejected: the
job fails before any worker spawn only when that fetch itself fails, with
the thrown fetch message; when the fetch succeeds the worker is spawned. -/
theorem C5_bare_channel_amended (ytOutcome : Except String Unit)
    (url e : String) (h1 : isYouTubeURL url = false) (h2 : url ≠ "") :
    urlPost (Except.error e) ytOutcome true (some url) =
      URLPostResult.acquisitionFailed e ∧
    urlPost (Except.ok ()) ytOutcome true (some url) =
      URLPostResult.workerSpawned AcquireStrategy.directFetch := by
  constructor <;> simp [urlPost, h1, h2, Except.map]

/-- C5 amended witness at the concrete bare channel URL. -/
theorem C5_bare_channel_amended_witness :
    urlPost (Except.error ("Failed to download audio from URL: fetch failed"))
        (Except.ok ()) true (some ("https://www.youtube.com/")) =
      URLPostResult.acquisitionFailed
        "Failed to download audio from URL: fetch failed" ∧
    urlPost (Except.ok ()) (Except.ok ()) true (some ("https://www.youtube.com/")) =
      URLPostResult.workerSpawned AcquireStrategy.directFetch :=
  C5_bare_channel_amended (Except.ok ())
    "https://www.youtube.com/"
    "Failed to download audio from URL: fetch failed"
    (by decide) (by decide)

/-- C10: an upload POST whose multipart body has no audio field, or whose
audio value is a plain string rather than a Blob, is answered with status
400 and the no-audio-file error, and no temp artifact is written; the write
happens only on the Blob branch, after the validation. -/
theorem C10_upload_validation (req : UploadRequest) (path : String)
    (h : req.audio = none ∨ ∃ s, req.audio = some (FormValue.stringValue s)) :
    uploadPost req path =
      { status := 400, errorMsg := some ("No audio file provided"),
        actions := [], handling := UploadHandling.rejectedRequest } ∧
    ServerAction.writeFile path ∉ (uploadPost req path).actions ∧
    (∀ bytes accepts,
      (uploadPost { audio := some (FormValue.blobValue bytes),
                    acceptsEventStream := accepts } path).actions =
        [ServerAction.writeFile path]) := by
  refine ⟨?_, ?_, ?_⟩
  · rcases h with h | ⟨s, h⟩ <;> simp [uploadPost, h]
  · rcases h with h | ⟨s, h⟩ <;> simp [uploadPost, h]
  · intro bytes accepts
    cases accepts <;> simp [uploadPost]

/-- C10 witness at a concrete request lacking the audio field. -/
theorem C10_upload_validation_witness :
    uploadPost { audio := none, acceptsEventStream := true } "f.mp3" =
      { status := 400, errorMsg := some ("No audio file provided"),
        actions := [], handling := UploadHandling.rejectedRequest } ∧
    ServerAction.writeFile ("f.mp3") ∉
      (uploadPost { audio := none, acceptsEventStream := true } "f.mp3").actions ∧
    (∀ bytes accepts,
      (uploadPost { audio := some (FormValue.blobValue bytes),
                    acceptsEventStream := accepts } "f.mp3").actions =
        [ServerAction.writeFile ("f.mp3")]) :=
  C10_upload_validation { audio := none, acceptsEventStream := true } "f.mp3"
    (Or.inl rfl)

/-- C4: on a worker run with a nonzero exit status, whatever progress frames
were already delivered, the streamed trace of the upload route contains
exactly one terminal frame, an error frame carrying the exit code and the
full accumulated stderr; the runner of the URL route likewise rejects with a
message carrying the code and the full accumulated stderr. -/
theorem C4_nonzero_exit_single_error
    (parseProgress : String → Option ProgressUpdate)
    (parseResult : String → Except String TranscriptionResult)
    (run : WorkerRun) (path : String) (h : run.exitCode ≠ 0) :
    (enqueuedFrames
        (localStreamedActions parseProgress parseResult true run path)).filter
        isTerminalFrame =
      [Frame.error ("Python script exited with code " ++ toString run.exitCode
        ++ ": " ++ String.join run.stderrChunks)] ∧
    urlClose parseResult run.exitCode (String.join run.stdoutChunks)
        (String.join run.stderrChunks) =
      RunOutcome.rejected ("Python script failed with code "
        ++ toString run.exitCode ++ ": " ++ String.join run.stderrChunks) := by
  constructor
  · simp [localStreamedActions, enqueuedFrames, localTerminalActions,
      localCloseWithProgress, h, List.filterMap_append, List.filterMap_map,
      List.filter_append, List.filter_map, isTerminalFrame, Function.comp]
    intro a x c hc hx hax
    subst hax
    rfl
  · simp [urlClose, h]

/-- C4 witness: a run that emitted one progress frame and then exited 1. -/
theorem C4_nonzero_exit_single_error_witness :
    (enqueuedFrames
        (localStreamedActions progressParse resultParseErr true runExit1
          ("f.mp3"))).filter isTerminalFrame =
      [Frame.error ("Python script exited with code "
        ++ toString runExit1.exitCode ++ ": "
        ++ String.join runExit1.stderrChunks)] ∧
    urlClose resultParseErr runExit1.exitCode
        (String.join runExit1.stdoutChunks) (String.join runExit1.stderrChunks) =
      RunOutcome.rejected ("Python script failed with code "
        ++ toString runExit1.exitCode ++ ": "
        ++ String.join runExit1.stderrChunks) :=
  C4_nonzero_exit_single_error progressParse resultParseErr runExit1 ("f.mp3")
    (by decide)

/-- C6 counterexample: on a diagnostic line where the marker is preceded by
a log prefix, the upload-route decoder emits nothing even though the body
after the marker is valid progress JSON; only the URL-route decoder decodes
it. -/
theorem C6_offset_marker_counterexample :
    localDecodeLine progressParse lineC6 = [] ∧
    urlDecodeLine progressParse lineC6 = [exProgress 10] := by
  decide

/-- C6 (amended): the URL-route decoder locates the first occurrence of the
marker at any offset, slices from just after it to the end of the line, and
decodes; the upload-route decoder instead requires the marker strictly at
offset 0 and emits nothing for a line with any prefix before the marker. -/
theorem C6_marker_offset_amended (parse : String → Option ProgressUpdate)
    (line : String) (i : Nat) (ev : ProgressUpdate)
    (h1 : findSubstrIdx progressMarker.data line.data = some i)
    (h2 : parse ((line.data.drop (i + 9)).asString) = some ev) :
    urlDecodeLine parse line = [ev] ∧
    (¬ progressMarker.data.isPrefixOf line.data →
      localDecodeLine parse line = []) := by
  constructor
  · simp [urlDecodeLine, h1, h2]
  · intro h3
    simp [localDecodeLine, h3]

/-- C6 amended witness at the concrete prefixed line. -/
theorem C6_marker_offset_amended_witness :
    urlDecodeLine progressParse lineC6 = [exProgress 10] ∧
    (¬ progressMarker.data.isPrefixOf lineC6.data →
      localDecodeLine progressParse lineC6 = []) :=
  C6_marker_offset_amended progressParse lineC6 7 (exProgress 10)
    (by decide) (by decide)

/-- C7: a progress line whose body after the marker fails to JSON-decode
produces zero events in either decoder (the failure is swallowed by the
catch, there being no other exit from the line loop), and on a zero exit
status the terminal outcome of each supervisor is a function of stdout
alone, so no stderr content, malformed progress lines included, can
terminate the job. -/
theorem C7_malformed_line_swallowed :
    (∀ (parse : String → Option ProgressUpdate) (line : String),
      parse ((line.data.drop 9).asString) = none →
      localDecodeLine parse line = []) ∧
    (∀ (parse : String → Option ProgressUpdate) (line : String) (i : Nat),
      findSubstrIdx progressMarker.data line.data = some i →
      parse ((line.data.drop (i + 9)).asString) = none →
      urlDecodeLine parse line = []) ∧
    (∀ (parseResult : String → Except String TranscriptionResult)
      (stdout s1 s2 : String),
      localCloseWithProgress parseResult 0 stdout s1 =
        localCloseWithProgress parseResult 0 stdout s2 ∧
      urlClose parseResult 0 stdout s1 = urlClose parseResult 0 stdout s2) := by
  refine ⟨?_, ?_, ?_⟩
  · intro parse line h
    unfold localDecodeLine
    split
    · simp [h]
    · rfl
  · intro parse line i h1 h2
    simp [urlDecodeLine, h1, h2]
  · intro parseResult stdout s1 s2
    constructor
    · unfold localCloseWithProgress
      simp
    · unfold urlClose
      simp

/-- C7 witness: the truncated progress line yields no event in either
decoder. -/
theorem C7_malformed_line_swallowed_witness :
    localDecodeLine noneProgressParse truncatedLine = [] ∧
    urlDecodeLine noneProgressParse truncatedLine = [] :=
  ⟨C7_malformed_line_swallowed.1 noneProgressParse truncatedLine rfl,
   C7_malformed_line_swallowed.2.1 noneProgressParse truncatedLine 0
     (by decide) rfl⟩

/-- C8 counterexample: a worker progress line carrying percentage 150 is
relayed verbatim, so the client is delivered a progress frame whose
percentage lies outside the unit-percent interval. -/
theorem C8_out_of_range_counterexample :
    Frame.progress (exProgress 150) ∈
      enqueuedFrames
        (localStreamedActions parse150 resultParseOk true run150 ("f.mp3")) ∧
    ¬ ((exProgress 150).percentage ≤ 100) := by
  decide

/-- C8 (amended): no server component validates or clamps percentages, which
reach the client exactly as decoded; the terminal complete frame carries no
percentage field at all, but on processing a complete frame the client
itself sets its progress percentage to 100, and the bar width is clamped to
the interval from 0 to 100 only at render time. -/
theorem C8_percentage_amended (s : ProgressState)
    (r : Option TranscriptionResult) (p : ProgressUpdate) :
    (clientStep s (Frame.complete r)).percentage = 100 ∧
    (clientStep s (Frame.progress p)).percentage = p.percentage ∧
    0 ≤ progressBarWidth s ∧ progressBarWidth s ≤ 100 := by
  refine ⟨rfl, rfl, ?_, ?_⟩
  · exact le_min (by norm_num) (le_max_left 0 _)
  · exact min_le_left 100 _

/-- Splitting on a character absent from the list leaves one piece. -/
theorem splitOnChar_of_not_mem (c : Char) (cs : List Char) (h : c ∉ cs) :
    splitOnChar c cs = [cs] := by
  induction cs with
  | nil => rfl
  | cons x xs ih =>
    have hx : ¬ x = c := fun hh => h (hh ▸ List.mem_cons_self x xs)
    have hxs : c ∉ xs := fun hh => h (List.mem_cons_of_mem x hh)
    simp [splitOnChar, hx, ih hxs]

/-- Splitting at the first separator occurrence detaches the clean head. -/
theorem splitOnChar_append_cons (c : Char) (xs ys : List Char) (h : c ∉ xs) :
    splitOnChar c (xs ++ c :: ys) = xs :: splitOnChar c ys := by
  induction xs with
  | nil => simp [splitOnChar]
  | cons x xs ih =>
    have hx : ¬ x = c := fun hh => h (hh ▸ List.mem_cons_self x xs)
    have hxs : c ∉ xs := fun hh => h (List.mem_cons_of_mem x hh)
    simp only [List.cons_append, splitOnChar, if_neg hx, List.append_eq, ih hxs]

/-- A list is a Boolean prefix of itself followed by anything. -/
theorem isPrefixOf_append_self (l t : List Char) : l.isPrefixOf (l ++ t) = true := by
  induction l with
  | nil => cases t <;> rfl
  | cons x xs ih => simp [List.isPrefixOf, ih]

/-- The chars of a string rebuilt into a string give the string back. -/
theorem asString_data (s : String) : s.data.asString = s := rfl

/-- A newline-free chunk is a single line. -/
theorem jsLines_no_newline (s : String) (h : ('\n') ∉ s.data) :
    jsLines s = [s] := by
  unfold jsLines
  rw [splitOnChar_of_not_mem _ _ h]
  rfl

/-- A newline-free payload followed by the double newline splits into the
payload line and two empty lines. -/
theorem jsLines_append_double_nl (s : String) (h : ('\n') ∉ s.data) :
    jsLines (s ++ "\n\n") = [s, "", ""] := by
  unfold jsLines
  have hd : (s ++ "\n\n").data = s.data ++ '\n' :: ['\n'] := by
    rw [String.data_append]
  rw [hd, splitOnChar_append_cons _ _ _ h]
  have h2 : splitOnChar '\n' ['\n'] = [[], []] := by decide
  rw [h2]
  rfl

/-- A whole frame inside one chunk is decoded by the client according to
its parse outcome. -/
theorem clientProcessChunk_whole_frame (parse : String → Option Frame)
    (b : String) (h : ('\n') ∉ b.data) :
    clientProcessChunk parse (("data: " ++ b) ++ "\n\n") =
      (match parse b with
       | some e => [e]
       | none => []) := by
  have hnl : ('\n') ∉ ("data: " ++ b).data := by
    rw [String.data_append]
    intro hm
    rcases List.mem_append.mp hm with hm1 | hm2
    · exact absurd hm1 (by decide)
    · exact h hm2
  unfold clientProcessChunk
  rw [jsLines_append_double_nl _ hnl]
  have hpre : ("data: ".data).isPrefixOf (("data: " ++ b).data) = true := by
    rw [String.data_append]
    exact isPrefixOf_append_self _ _
  have hdrop : (("data: " ++ b).data).drop 6 = b.data := by
    rw [String.data_append,
      show (6 : Nat) = ("data: ".data).length from rfl, List.drop_left]
  have hempty : ("data: ".data).isPrefixOf ("".data) = false := rfl
  simp [hpre, hdrop, hempty, asString_data]

/-- A chunk whose single line does not carry the data prefix yields no
frame. -/
theorem clientProcessChunk_no_frame (parse : String → Option Frame)
    (b : String) (h : ('\n') ∉ b.data)
    (hnp : ("data: ".data).isPrefixOf b.data = false) :
    clientProcessChunk parse (b ++ "\n\n") = [] := by
  unfold clientProcessChunk
  rw [jsLines_append_double_nl _ h]
  have hnp2 : ¬ (("data: ".data) <+: b.data) := by
    intro hp
    have hb := List.isPrefixOf_iff_prefix.mpr hp
    rw [hnp] at hb
    exact absurd hb (by decide)
  have hempty : ¬ (("data: ".data) <+: ("".data)) := by decide
  simp [hnp2, hempty]

/-- C9 counterexample: the serialized complete frame split across two
transport chunks is dispatched zero times by the client consumer (the first
fragment fails to parse and is swallowed, the continuation lacks the data
prefix), while the same frame arriving whole in one chunk is dispatched
exactly once. -/
theorem C9_split_frame_counterexample :
    clientProcessStream eventParse
      [("data: " ++ frameFrag1), (frameFrag2 ++ "\n\n")] = [] ∧
    clientProcessStream eventParse [(("data: " ++ frameBody) ++ "\n\n")] =
      [Frame.complete none] := by
  decide

/-- C9 (amended): the consumer decodes every transport chunk independently,
splitting it on newlines with no carry-over of a trailing fragment: a frame
wholly inside one chunk is dispatched exactly once, but a frame split
across two chunks is dispatched zero times, its leading fragment failing
the JSON parse and its continuation lacking the data prefix. -/
theorem C9_no_partial_frame_buffer (parse : String → Option Frame)
    (b1 b2 : String) (ev : Frame)
    (h1 : ('\n') ∉ b1.data) (h2 : ('\n') ∉ b2.data)
    (hok : parse (b1 ++ b2) = some ev)
    (hfrag : parse b1 = none)
    (hnp : ("data: ".data).isPrefixOf b2.data = false) :
    clientProcessStream parse [(("data: " ++ (b1 ++ b2)) ++ "\n\n")] = [ev] ∧
    clientProcessStream parse [("data: " ++ b1), (b2 ++ "\n\n")] = [] := by
  constructor
  · have hb : ('\n') ∉ (b1 ++ b2).data := by
      rw [String.data_append]
      intro hm
      rcases List.mem_append.mp hm with u | u
      · exact h1 u
      · exact h2 u
    simp [clientProcessStream, clientProcessChunk_whole_frame parse (b1 ++ b2) hb, hok]
  · have hc1 : clientProcessChunk parse ("data: " ++ b1) = [] := by
      have hnl : ('\n') ∉ ("data: " ++ b1).data := by
        rw [String.data_append]
        intro hm
        rcases List.mem_append.mp hm with hm1 | hm2
        · exact absurd hm1 (by decide)
        · exact h1 hm2
      unfold clientProcessChunk
      rw [jsLines_no_newline _ hnl]
      have hpre : ("data: ".data).isPrefixOf (("data: " ++ b1).data) = true := by
        rw [String.data_append]
        exact isPrefixOf_append_self _ _
      have hdrop : (("data: " ++ b1).data).drop 6 = b1.data := by
        rw [String.data_append,
          show (6 : Nat) = ("data: ".data).length from rfl, List.drop_left]
      simp [hpre, hdrop, asString_data, hfrag]
    have hc2 : clientProcessChunk parse (b2 ++ "\n\n") = [] :=
      clientProcessChunk_no_frame parse b2 h2 hnp
    simp [clientProcessStream, hc1, hc2]

/-- C9 amended witness at the concrete split complete frame. -/
theorem C9_no_partial_frame_buffer_witness :
    clientProcessStream eventParse
      [(("data: " ++ (frameFrag1 ++ frameFrag2)) ++ "\n\n")] =
      [Frame.complete none] ∧
    clientProcessStream eventParse
      [("data: " ++ frameFrag1), (frameFrag2 ++ "\n\n")] = [] :=
  C9_no_partial_frame_buffer eventParse frameFrag1 frameFrag2
    (Frame.complete none) (by decide) (by decide) (by decide) (by decide)
    (by decide)

end TranscriptionApp
